import Mathlib

/-!
# job_handler: the `POST /jobs` enqueue handler

A shallow embedding of `src/index.js` (the Express route `app.post('/jobs', ...)`) and of
`src/db.js` (the `query` wrapper around the `pg` connection pool), followed by the properties
of the handler that the specification states.

The handler is effectful JavaScript: it calls the store, writes to the response object and
logs to the console. The embedding passes these effects explicitly:

* `World σ` holds the store's state (of an arbitrary type `σ`), the list of calls made to
  `pool.query` so far, and the list of `console.error` calls so far;
* `Res` is the Express response object: the current status code and the bodies sent.
-/

namespace JobHandler

/-! ## JavaScript values -/

/-- A JavaScript value as the handler can observe it: the JSON values that `express.json()` and
the `pg` driver produce, together with `undefined`, which is what reading an absent property
yields. Numbers are represented by their integer value: the handler never computes with a
number, it only tests it for truthiness and forwards it. -/
inductive JSValue where
  | undefined
  | null
  | bool (b : Bool)
  | number (n : Int)
  | string (s : String)
  | array (items : List JSValue)
  | object (props : List (String × JSValue))

/-- A JavaScript object, given by its own properties. -/
abbrev JSObject := List (String × JSValue)

namespace JSValue

/-- JavaScript `ToBoolean`: `undefined`, `null`, `false`, `0` and `""` are falsy, every other
value (every array and every object, empty ones included) is truthy. -/
def truthy : JSValue → Bool
  | .undefined => false
  | .null => false
  | .bool b => b
  | .number n => n != 0
  | .string s => s != ""
  | .array _ => true
  | .object _ => true

end JSValue

/-- Property read `o.key`: the value of the own property `key`, `undefined` when there is none. -/
def getProp (o : JSObject) (key : String) : JSValue :=
  match o.lookup key with
  | some v => v
  | none => .undefined

/-- The default of a destructuring pattern `{ key = dflt }`: the default replaces the value
exactly when the value read is `undefined` (and not when it is `null` or another falsy value). -/
def withDefault (v dflt : JSValue) : JSValue :=
  match v with
  | .undefined => dflt
  | w => w

/-! ## The store (`pg` pool) and `src/db.js` -/

/-- The result object `pool.query` resolves with; the handler reads only `rows`, an array of
row objects. -/
structure QueryResult where
  rows : List JSObject

/-- How the promise returned by `pool.query` settles. -/
inductive QueryOutcome where
  | resolved (result : QueryResult)
  | rejected (error : JSValue)

/-- The `pg` pool, external to the repository: `query text params` run on a store in state `σ`
settles one way or the other and leaves the store in a new state. -/
structure Pool (σ : Type) where
  query : String → List JSValue → σ → QueryOutcome × σ

/-- A value caught by the handler's `catch`: the reason the store's promise rejected with, or
the `TypeError` raised by reading a property of `undefined`. -/
inductive Thrown where
  | rejection (reason : JSValue)
  | typeError

/-- The effects of the process visible to the handler. -/
structure World (σ : Type) where
  /-- state of the Job Store -/
  store : σ
  /-- every call of `pool.query` so far, oldest first: SQL text and parameter list -/
  queries : List (String × List JSValue)
  /-- every `console.error` call so far, oldest first: label and logged error -/
  console : List (String × Thrown)

/-- One call of `pool.query(text, params)`: the call is recorded and the store moves on. -/
def Pool.call {σ : Type} (pool : Pool σ) (text : String) (params : List JSValue)
    (w : World σ) : QueryOutcome × World σ :=
  let r := pool.query text params w.store
  (r.1, { w with store := r.2, queries := w.queries ++ [(text, params)] })

/-- The export of `src/db.js`, line 24: `query: (text, params) => pool.query(text, params)`. -/
def db.query {σ : Type} (pool : Pool σ) (text : String) (params : List JSValue)
    (w : World σ) : QueryOutcome × World σ :=
  pool.call text params w

/-- The call `console.error(label, error)`. -/
def World.consoleError {σ : Type} (w : World σ) (label : String) (error : Thrown) : World σ :=
  { w with console := w.console ++ [(label, error)] }

/-! ## The Express request and response objects -/

/-- The request; `body` is `req.body` as `express.json()` (line 5 of `src/index.js`) parsed
it: an object, given by its own properties. (The parser hands over objects and arrays only; an
array has none of the four properties the handler reads and behaves as an object without
them.) -/
structure Request where
  body : JSObject

/-- The response object: the status code set so far and every body sent with `res.json`,
each with the status code it went out with. -/
structure Res where
  statusCode : Nat
  sent : List (Nat × JSValue)

/-- The call `res.status(code)`. -/
def Res.status (res : Res) (code : Nat) : Res :=
  { res with statusCode := code }

/-- The call `res.json(body)`. -/
def Res.json (res : Res) (body : JSValue) : Res :=
  { res with sent := res.sent ++ [(res.statusCode, body)] }

/-! ## `src/index.js` -/

/-- The template literal of lines 22 to 26. -/
def queryText : String :=
  "\n    INSERT INTO jobs (queue_name, job_type, payload, job_priority, job_status, job_created_at)\n    VALUES ($1, $2, $3, $4, 'pending', NOW())\n    RETURNING job_id;\n  "

/-- The array `values` that the handler builds at line 28, as a function of the request
body: the three required fields and `job_priority` with its destructuring default `0`
(line 9). Used to state what the handler passes to the store. -/
def values (body : JSObject) : List JSValue :=
  [getProp body "queue_name", getProp body "job_type", getProp body "payload",
    withDefault (getProp body "job_priority") (.number 0)]

/-- The body sent at line 15. -/
def missingFieldsBody : JSValue :=
  .object [("error", .string "Missing required fields")]

/-- The body sent at lines 37 to 40. -/
def createdBody (job_id : JSValue) : JSValue :=
  .object [("message", .string "Job created successfully"), ("job_id", job_id)]

/-- The body sent at line 43. -/
def internalErrorBody : JSValue :=
  .object [("error", .string "Internal Server Error")]

/-- The `catch` block, lines 41 to 44. -/
def catchBlock {σ : Type} (error : Thrown) (w : World σ) (res : Res) : World σ × Res :=
  (w.consoleError "Database Insert Error:" error, (res.status 500).json internalErrorBody)

/-- The handler of `app.post('/jobs', ...)`, lines 8 to 45.

Inside the `try`, `res.status(201)` runs before the argument of `.json(...)` is evaluated, so
when `result.rows[0]` is `undefined` the status is first set to 201, then reading `.job_id`
raises a `TypeError` and the `catch` block sets it to 500 and sends the only body. -/
def postJobs {σ : Type} (pool : Pool σ) (req : Request) (w : World σ) (res : Res) :
    World σ × Res :=
  let queue_name := getProp req.body "queue_name"
  let job_type := getProp req.body "job_type"
  let payload := getProp req.body "payload"
  let job_priority := withDefault (getProp req.body "job_priority") (.number 0)
  if !queue_name.truthy || !job_type.truthy || !payload.truthy then
    (w, (res.status 400).json missingFieldsBody)
  else
    let values := [queue_name, job_type, payload, job_priority]
    match db.query pool queryText values w with
    | (.resolved result, w1) =>
      let res1 := res.status 201
      match result.rows.head? with
      | some row => (w1, res1.json (createdBody (getProp row "job_id")))
      | none => catchBlock .typeError w1 res1
    | (.rejected error, w1) => catchBlock (.rejection error) w1 res

/-- The request gets past the guard of line 14: `!queue_name || !job_type || !payload` is
false. -/
def passesValidation (body : JSObject) : Bool :=
  !(!(getProp body "queue_name").truthy || !(getProp body "job_type").truthy
    || !(getProp body "payload").truthy)

/-! ## Stores to run the handler against -/

/-- The identifier the model store gives its next row: one more than every number already
used as a `job_id`. -/
def nextId (table : List JSObject) : Int :=
  table.foldl (fun m r =>
    match getProp r "job_id" with
    | .number n => max m n
    | _ => m) 0 + 1

/-- A model of the Job Store, its state the list of rows of the `jobs` table: every query is
the insert; it appends one row holding the four parameters, the status `pending` and a
`job_id` no existing row has, and resolves with that `job_id` as its only row. -/
def modelStore : Pool (List JSObject) where
  query _ params table :=
    let id := JSValue.number (nextId table)
    (.resolved { rows := [[("job_id", id)]] },
      table ++ [[("job_id", id), ("queue_name", params.getD 0 .undefined),
        ("job_type", params.getD 1 .undefined), ("payload", params.getD 2 .undefined),
        ("job_priority", params.getD 3 .undefined), ("job_status", .string "pending")]])

/-- A store that is unreachable: every query rejects with the given error. -/
def failingStore (error : JSValue) : Pool Unit where
  query _ _ s := (.rejected error, s)

/-- A store whose every query resolves with the given rows. -/
def constStore (rows : List JSObject) : Pool Unit where
  query _ _ s := (.resolved { rows := rows }, s)

/-- A store behaves as the insert of the model does on the handler's statement: the query
resolves, its first row carries an identifier `i`, exactly one row with that identifier is
appended to the table, and no row already in the table has the identifier `i`. -/
def InsertsFreshRow {σ : Type} (pool : Pool σ) (table : σ → List JSObject) : Prop :=
  ∀ (params : List JSValue) (s : σ), ∃ (i : JSValue) (first row : JSObject)
    (rest : List JSObject) (s1 : σ),
    pool.query queryText params s = (.resolved { rows := first :: rest }, s1) ∧
    getProp first "job_id" = i ∧ table s1 = table s ++ [row] ∧ getProp row "job_id" = i ∧
    ∀ r ∈ table s, getProp r "job_id" ≠ i

/-- An empty world over a store in state `s`: no query made, nothing logged. -/
def World.init {σ : Type} (s : σ) : World σ :=
  { store := s, queries := [], console := [] }

/-- The response object Express hands to a handler: status 200, nothing sent. -/
def Res.init : Res :=
  { statusCode := 200, sent := [] }

/-! ## Sample requests -/

/-- Scenario 1 of the specification: a valid submission without `job_priority`. -/
def welcomeJob : Request :=
  { body := [("queue_name", .string "emails"), ("job_type", .string "welcome"),
      ("payload", .object [("to", .string "a@x.com")])] }

/-- Scenario 2 of the specification: `payload` is missing. -/
def noPayloadJob : Request :=
  { body := [("queue_name", .string "emails"), ("job_type", .string "welcome")] }

/-- A submission whose `payload` is the empty string. -/
def emptyPayloadJob : Request :=
  { body := [("queue_name", .string "emails"), ("job_type", .string "welcome"),
      ("payload", .string "")] }

/-- A submission with a negative `job_priority`. -/
def lowPriorityJob : Request :=
  { body := [("queue_name", .string "emails"), ("job_type", .string "welcome"),
      ("payload", .object []), ("job_priority", .number (-3))] }

/-- A submission with an explicit `"job_priority": null`. -/
def nullPriorityJob : Request :=
  { body := [("queue_name", .string "emails"), ("job_type", .string "welcome"),
      ("payload", .object []), ("job_priority", .null)] }

/-- A submission whose `queue_name` is a number. -/
def numericQueueJob : Request :=
  { body := [("queue_name", .number 5), ("job_type", .string "welcome"),
      ("payload", .object [])] }

/-! ## The handler, path by path -/

theorem passesValidation_iff (body : JSObject) :
    passesValidation body = true ↔
      (getProp body "queue_name").truthy = true ∧ (getProp body "job_type").truthy = true ∧
        (getProp body "payload").truthy = true := by
  simp [passesValidation, and_assoc]

theorem postJobs_of_invalid {σ : Type} (pool : Pool σ) (req : Request) (w : World σ) (res : Res)
    (h : passesValidation req.body = false) :
    postJobs pool req w res = (w, { statusCode := 400, sent := res.sent ++ [(400, missingFieldsBody)] }) := by
  simp only [passesValidation, Bool.not_eq_false'] at h
  simp [postJobs, h, Res.status, Res.json]

theorem postJobs_of_rejected {σ : Type} (pool : Pool σ) (req : Request) (w : World σ) (res : Res)
    (error : JSValue) (s1 : σ) (h : passesValidation req.body = true)
    (hq : pool.query queryText (values req.body) w.store = (.rejected error, s1)) :
    postJobs pool req w res =
      ({ store := s1, queries := w.queries ++ [(queryText, values req.body)],
         console := w.console ++ [("Database Insert Error:", .rejection error)] },
       { statusCode := 500, sent := res.sent ++ [(500, internalErrorBody)] }) := by
  simp only [passesValidation, Bool.not_eq_true'] at h
  simp only [values] at hq
  simp [postJobs, h, db.query, Pool.call, hq, catchBlock, World.consoleError, Res.status,
    Res.json, values]

theorem postJobs_of_no_rows {σ : Type} (pool : Pool σ) (req : Request) (w : World σ) (res : Res)
    (s1 : σ) (h : passesValidation req.body = true)
    (hq : pool.query queryText (values req.body) w.store = (.resolved { rows := [] }, s1)) :
    postJobs pool req w res =
      ({ store := s1, queries := w.queries ++ [(queryText, values req.body)],
         console := w.console ++ [("Database Insert Error:", .typeError)] },
       { statusCode := 500, sent := res.sent ++ [(500, internalErrorBody)] }) := by
  simp only [passesValidation, Bool.not_eq_true'] at h
  simp only [values] at hq
  simp [postJobs, h, db.query, Pool.call, hq, catchBlock, World.consoleError, Res.status,
    Res.json, values]

theorem postJobs_of_row {σ : Type} (pool : Pool σ) (req : Request) (w : World σ) (res : Res)
    (row : JSObject) (rest : List JSObject) (s1 : σ) (h : passesValidation req.body = true)
    (hq : pool.query queryText (values req.body) w.store =
      (.resolved { rows := row :: rest }, s1)) :
    postJobs pool req w res =
      ({ store := s1, queries := w.queries ++ [(queryText, values req.body)],
         console := w.console },
       { statusCode := 201, sent := res.sent ++ [(201, createdBody (getProp row "job_id"))] }) := by
  simp only [passesValidation, Bool.not_eq_true'] at h
  simp only [values] at hq
  simp [postJobs, h, db.query, Pool.call, hq, Res.status, Res.json, values]

theorem postJobs_queries_of_valid {σ : Type} (pool : Pool σ) (req : Request) (w : World σ)
    (res : Res) (hv : passesValidation req.body = true) :
    (postJobs pool req w res).1.queries = w.queries ++ [(queryText, values req.body)] := by
  rcases hq : pool.query queryText (values req.body) w.store with ⟨out, s1⟩
  rcases out with ⟨rows⟩ | error
  · rcases rows with _ | ⟨row, rest⟩
    · rw [postJobs_of_no_rows pool req w res s1 hv hq]
    · rw [postJobs_of_row pool req w res row rest s1 hv hq]
  · rw [postJobs_of_rejected pool req w res error s1 hv hq]

theorem postJobs_world_of_invalid {σ : Type} (pool : Pool σ) (req : Request) (w : World σ)
    (res : Res) (hv : passesValidation req.body = false) :
    (postJobs pool req w res).1 = w := by
  rw [postJobs_of_invalid pool req w res hv]

theorem truthy_ne_falsy (v : JSValue) (h : v.truthy = true) :
    v ≠ .undefined ∧ v ≠ .null ∧ v ≠ .string "" := by
  refine ⟨?_, ?_, ?_⟩ <;> rintro rfl <;> simp [JSValue.truthy] at h

theorem foldl_maxId_ge (table : List JSObject) (m : Int) :
    m ≤ table.foldl (fun m r =>
      match getProp r "job_id" with
      | .number n => max m n
      | _ => m) m := by
  induction table generalizing m with
  | nil => simp
  | cons r rest ih =>
    simp only [List.foldl_cons]
    split
    · exact le_trans (le_max_left _ _) (ih _)
    · exact ih _

theorem foldl_maxId_ge_of_mem (table : List JSObject) (m n : Int) (r : JSObject)
    (hr : r ∈ table) (hn : getProp r "job_id" = .number n) :
    n ≤ table.foldl (fun m r =>
      match getProp r "job_id" with
      | .number n => max m n
      | _ => m) m := by
  induction table generalizing m with
  | nil => simp at hr
  | cons x rest ih =>
    simp only [List.foldl_cons]
    rcases List.mem_cons.1 hr with rfl | hmem
    · rw [hn]
      exact le_trans (le_max_right _ _) (foldl_maxId_ge rest _)
    · exact ih _ hmem

theorem nextId_fresh (table : List JSObject) (r : JSObject) (hr : r ∈ table) :
    getProp r "job_id" ≠ .number (nextId table) := by
  intro h
  have := foldl_maxId_ge_of_mem table 0 _ r hr h
  unfold nextId at this
  omega

theorem modelStore_insertsFreshRow : InsertsFreshRow modelStore (fun table => table) := by
  intro params table
  exact ⟨.number (nextId table), _, _, _, _, rfl, rfl, rfl, rfl,
    fun r hr => nextId_fresh table r hr⟩

/-! ## Validation failures -/

/-- C1: when at least one of `queue_name`, `job_type`, `payload` is missing (reading it yields
`undefined`), `null` or the empty string, the handler sends exactly the status 400 with the
body `{error: 'Missing required fields'}`, whichever field it is, and leaves the world as it
found it: no call of the store's query, no store change, nothing logged. -/
theorem missing_field_responds_400 {σ : Type} (pool : Pool σ) (req : Request) (w : World σ)
    (res : Res)
    (h : ∃ key, key ∈ ["queue_name", "job_type", "payload"] ∧
      (getProp req.body key = .undefined ∨ getProp req.body key = .null ∨
        getProp req.body key = .string "")) :
    postJobs pool req w res =
        (w, { statusCode := 400,
              sent := res.sent ++ [(400, .object [("error", .string "Missing required fields")])] }) ∧
      (postJobs pool req w res).1.queries = w.queries := by
  have hv : passesValidation req.body = false := by
    obtain ⟨key, hkey, hval⟩ := h
    have hf : (getProp req.body key).truthy = false := by
      rcases hval with e | e | e <;> rw [e] <;> rfl
    simp only [List.mem_cons, List.mem_singleton, List.not_mem_nil, or_false] at hkey
    rcases hkey with rfl | rfl | rfl <;> simp [passesValidation, hf]
  have hp := postJobs_of_invalid pool req w res hv
  exact ⟨hp, by rw [hp]⟩

/-- C1 at scenario 2 of the specification (no `payload`), over the model store. -/
theorem missing_field_responds_400_witness :
    postJobs modelStore noPayloadJob (World.init []) Res.init =
        (World.init [], { statusCode := 400, sent := [(400, missingFieldsBody)] }) ∧
      (postJobs modelStore noPayloadJob (World.init []) Res.init).1.queries = [] :=
  missing_field_responds_400 modelStore noPayloadJob (World.init []) Res.init
    ⟨"payload", by simp, Or.inl rfl⟩

/-! ## The success path -/

/-- C2 as stated fails: `queue_name` and `job_type` are non-empty strings, `payload` is present
and non-null (the JSON value `""`), the store's insert succeeds and returns a row with identifier
`1`, and the handler answers 400, not 201. -/
theorem present_empty_payload_responds_400 :
    (∃ s, getProp emptyPayloadJob.body "queue_name" = .string s ∧ s ≠ "") ∧
      (∃ s, getProp emptyPayloadJob.body "job_type" = .string s ∧ s ≠ "") ∧
      emptyPayloadJob.body.lookup "payload" = some (.string "") ∧
      (modelStore.query queryText (values emptyPayloadJob.body) []).1 =
        .resolved { rows := [[("job_id", .number 1)]] } ∧
      (postJobs modelStore emptyPayloadJob (World.init []) Res.init).2 =
        { statusCode := 400, sent := [(400, missingFieldsBody)] } := by
  refine ⟨⟨"emails", rfl, by decide⟩, ⟨"welcome", rfl, by decide⟩, rfl, rfl, ?_⟩
  rw [postJobs_of_invalid modelStore emptyPayloadJob (World.init []) Res.init rfl]
  rfl

/-- C2, amended: when `queue_name` and `job_type` are non-empty strings and `payload` is
truthy, and the store's insert resolves with a first row whose `job_id` is `i`, the handler
sends exactly the status 201 with the body `{message: 'Job created successfully', job_id: i}`. -/
theorem valid_submission_responds_201 {σ : Type} (pool : Pool σ) (req : Request) (w : World σ)
    (res : Res) (i : JSValue) (row : JSObject) (rest : List JSObject) (s1 : σ)
    (hq : ∃ s, getProp req.body "queue_name" = .string s ∧ s ≠ "")
    (ht : ∃ s, getProp req.body "job_type" = .string s ∧ s ≠ "")
    (hp : (getProp req.body "payload").truthy = true)
    (hstore : pool.query queryText (values req.body) w.store =
      (.resolved { rows := row :: rest }, s1))
    (hid : getProp row "job_id" = i) :
    (postJobs pool req w res).2 =
      { statusCode := 201,
        sent := res.sent ++
          [(201, .object [("message", .string "Job created successfully"), ("job_id", i)])] } := by
  have hv : passesValidation req.body = true := by
    obtain ⟨a, ha, ha0⟩ := hq
    obtain ⟨b, hb, hb0⟩ := ht
    rw [passesValidation_iff]
    refine ⟨?_, ?_, hp⟩
    · rw [ha]; simpa [JSValue.truthy] using ha0
    · rw [hb]; simpa [JSValue.truthy] using hb0
  rw [postJobs_of_row pool req w res row rest s1 hv hstore, hid]
  rfl

/-- The amended C2 at scenario 1 of the specification, over the model store. -/
theorem valid_submission_responds_201_witness :
    (postJobs modelStore welcomeJob (World.init []) Res.init).2 =
      { statusCode := 201,
        sent := [(201, .object [("message", .string "Job created successfully"),
          ("job_id", .number 1)])] } :=
  valid_submission_responds_201 modelStore welcomeJob (World.init []) Res.init (.number 1)
    [("job_id", .number 1)] [] _ ⟨"emails", rfl, by decide⟩ ⟨"welcome", rfl, by decide⟩ rfl rfl rfl

/-! ## Store failures -/

/-- C3: for requests that pass validation, whatever errors `e1` and `e2` the store's query
rejects with (over any two stores, worlds and requests), the handler sends exactly the status
500 with the body `{error: 'Internal Server Error'}`; the two response objects are equal
whenever they started equal, so nothing of the error reaches the client. -/
theorem store_failure_responds_500 {σ τ : Type} (pool1 : Pool σ) (pool2 : Pool τ)
    (req1 req2 : Request) (w1 : World σ) (w2 : World τ) (res : Res) (e1 e2 : JSValue)
    (s1 : σ) (s2 : τ)
    (hv1 : passesValidation req1.body = true) (hv2 : passesValidation req2.body = true)
    (hq1 : pool1.query queryText (values req1.body) w1.store = (.rejected e1, s1))
    (hq2 : pool2.query queryText (values req2.body) w2.store = (.rejected e2, s2)) :
    (postJobs pool1 req1 w1 res).2 =
        { statusCode := 500,
          sent := res.sent ++ [(500, .object [("error", .string "Internal Server Error")])] } ∧
      (postJobs pool1 req1 w1 res).2 = (postJobs pool2 req2 w2 res).2 := by
  rw [postJobs_of_rejected pool1 req1 w1 res e1 s1 hv1 hq1,
    postJobs_of_rejected pool2 req2 w2 res e2 s2 hv2 hq2]
  exact ⟨rfl, rfl⟩

/-- C3 at scenario 4 of the specification: the same valid request against a store that
refuses the connection and against one that times out. -/
theorem store_failure_responds_500_witness :
    (postJobs (failingStore (.string "ECONNREFUSED")) welcomeJob (World.init ()) Res.init).2 =
        { statusCode := 500, sent := [(500, internalErrorBody)] } ∧
      (postJobs (failingStore (.string "ECONNREFUSED")) welcomeJob (World.init ()) Res.init).2 =
        (postJobs (failingStore (.object [("message", .string "timeout")])) lowPriorityJob
          (World.init ()) Res.init).2 :=
  store_failure_responds_500 (failingStore (.string "ECONNREFUSED"))
    (failingStore (.object [("message", .string "timeout")])) welcomeJob lowPriorityJob
    (World.init ()) (World.init ()) Res.init (.string "ECONNREFUSED")
    (.object [("message", .string "timeout")]) () () rfl rfl rfl rfl

/-! ## The `job_priority` parameter -/

/-- C4: for a request that passes validation the handler makes one query whose fourth
parameter is `0` when the body has no `job_priority` key, and is the supplied number itself
when the body supplies an integer `job_priority`, whatever the integer. -/
theorem job_priority_default_and_verbatim {σ : Type} (pool : Pool σ) (req : Request)
    (w : World σ) (res : Res) (hv : passesValidation req.body = true) :
    (req.body.lookup "job_priority" = none →
        (postJobs pool req w res).1.queries =
          w.queries ++ [(queryText, [getProp req.body "queue_name", getProp req.body "job_type",
            getProp req.body "payload", .number 0])]) ∧
      (∀ n : Int, req.body.lookup "job_priority" = some (.number n) →
        (postJobs pool req w res).1.queries =
          w.queries ++ [(queryText, [getProp req.body "queue_name", getProp req.body "job_type",
            getProp req.body "payload", .number n])]) := by
  have hlog := postJobs_queries_of_valid pool req w res hv
  refine ⟨fun h => ?_, fun n h => ?_⟩ <;> simp [hlog, values, getProp, h, withDefault]

/-- C4 at a request without `job_priority` and at one with `job_priority: -3`. -/
theorem job_priority_default_and_verbatim_witness :
    (postJobs modelStore welcomeJob (World.init []) Res.init).1.queries =
        [(queryText, [.string "emails", .string "welcome",
          .object [("to", .string "a@x.com")], .number 0])] ∧
      (postJobs modelStore lowPriorityJob (World.init []) Res.init).1.queries =
        [(queryText, [.string "emails", .string "welcome", .object [], .number (-3)])] :=
  ⟨(job_priority_default_and_verbatim modelStore welcomeJob (World.init []) Res.init rfl).1 rfl,
    (job_priority_default_and_verbatim modelStore lowPriorityJob (World.init []) Res.init rfl).2
      (-3) rfl⟩

/-- C5 as stated fails: the request passes validation, its `job_priority` is an explicit
`null`, and the fourth parameter of the insert is `null`, not `0`. -/
theorem null_job_priority_not_defaulted :
    passesValidation nullPriorityJob.body = true ∧
      nullPriorityJob.body.lookup "job_priority" = some .null ∧
      (postJobs modelStore nullPriorityJob (World.init []) Res.init).1.queries =
        [(queryText, [.string "emails", .string "welcome", .object [], .null])] ∧
      JSValue.null ≠ JSValue.number 0 := by
  refine ⟨rfl, rfl, ?_, by simp⟩
  rw [postJobs_of_row modelStore nullPriorityJob (World.init []) Res.init
    [("job_id", .number 1)] [] _ rfl rfl]
  rfl

/-- C5, amended: for a request that passes validation, the fourth parameter of the insert is
`0` when `job_priority` is absent from the body, and is `null` when the body carries an
explicit `null`. -/
theorem job_priority_absent_or_null {σ : Type} (pool : Pool σ) (req : Request)
    (w : World σ) (res : Res) (hv : passesValidation req.body = true) :
    (req.body.lookup "job_priority" = none →
        (postJobs pool req w res).1.queries =
          w.queries ++ [(queryText, [getProp req.body "queue_name", getProp req.body "job_type",
            getProp req.body "payload", .number 0])]) ∧
      (req.body.lookup "job_priority" = some .null →
        (postJobs pool req w res).1.queries =
          w.queries ++ [(queryText, [getProp req.body "queue_name", getProp req.body "job_type",
            getProp req.body "payload", .null])]) := by
  have hlog := postJobs_queries_of_valid pool req w res hv
  refine ⟨fun h => ?_, fun h => ?_⟩ <;> simp [hlog, values, getProp, h, withDefault]

/-- The amended C5 at a request without `job_priority` and at one with an explicit `null`. -/
theorem job_priority_absent_or_null_witness :
    (postJobs modelStore welcomeJob (World.init []) Res.init).1.queries =
        [(queryText, [.string "emails", .string "welcome",
          .object [("to", .string "a@x.com")], .number 0])] ∧
      (postJobs modelStore nullPriorityJob (World.init []) Res.init).1.queries =
        [(queryText, [.string "emails", .string "welcome", .object [], .null])] :=
  ⟨(job_priority_absent_or_null modelStore welcomeJob (World.init []) Res.init rfl).1 rfl,
    (job_priority_absent_or_null modelStore nullPriorityJob (World.init []) Res.init rfl).2 rfl⟩

/-! ## Calls of the store -/

/-- C6: whatever the request and however the store behaves, the handler calls the store's
query at most once; it calls it exactly once when validation passes; and when that call
rejects, the log of calls ends with that single call and the store is left in the state the
call produced, so no second attempt follows. -/
theorem at_most_one_query {σ : Type} (pool : Pool σ) (req : Request) (w : World σ) (res : Res) :
    (postJobs pool req w res).1.queries.length ≤ w.queries.length + 1 ∧
      (postJobs pool req w res).1.queries.length =
        w.queries.length + (if passesValidation req.body = true then 1 else 0) ∧
      ∀ (error : JSValue) (s1 : σ), passesValidation req.body = true →
        pool.query queryText (values req.body) w.store = (.rejected error, s1) →
        (postJobs pool req w res).1.queries = w.queries ++ [(queryText, values req.body)] ∧
          (postJobs pool req w res).1.store = s1 := by
  refine ⟨?_, ?_, ?_⟩
  · cases hv : passesValidation req.body
    · rw [postJobs_world_of_invalid pool req w res hv]; omega
    · rw [postJobs_queries_of_valid pool req w res hv]; simp
  · cases hv : passesValidation req.body
    · rw [postJobs_world_of_invalid pool req w res hv]; simp
    · rw [postJobs_queries_of_valid pool req w res hv]; simp
  · intro error s1 hv hq
    rw [postJobs_of_rejected pool req w res error s1 hv hq]
    exact ⟨rfl, rfl⟩

/-- C6 at a valid request against an unreachable store: one call, and only one. -/
theorem at_most_one_query_witness :
    (postJobs (failingStore (.string "ECONNREFUSED")) welcomeJob (World.init ())
      Res.init).1.queries = [(queryText, values welcomeJob.body)] :=
  ((at_most_one_query (failingStore (.string "ECONNREFUSED")) welcomeJob (World.init ())
    Res.init).2.2 (.string "ECONNREFUSED") () rfl rfl).1

/-! ## The statement sent to the store -/

/-- C7: for any two requests that pass validation (over any stores), the text of the one
query each makes is the same string, the constant `queryText`, which writes the literal
`'pending'` and ends in `RETURNING job_id`; and the parameter list is, in this order,
`queue_name`, `job_type`, `payload` and `job_priority` (with its default), so the client's
fields travel as bound parameters only. -/
theorem insert_is_parameterized {σ τ : Type} (pool1 : Pool σ) (pool2 : Pool τ)
    (req1 req2 : Request) (w1 : World σ) (w2 : World τ) (res1 res2 : Res)
    (hv1 : passesValidation req1.body = true) (hv2 : passesValidation req2.body = true) :
    ∃ text : String,
      (postJobs pool1 req1 w1 res1).1.queries =
        w1.queries ++ [(text, [getProp req1.body "queue_name", getProp req1.body "job_type",
          getProp req1.body "payload",
          withDefault (getProp req1.body "job_priority") (.number 0)])] ∧
      (postJobs pool2 req2 w2 res2).1.queries =
        w2.queries ++ [(text, [getProp req2.body "queue_name", getProp req2.body "job_type",
          getProp req2.body "payload",
          withDefault (getProp req2.body "job_priority") (.number 0)])] ∧
      text = queryText ∧
      (∃ a b : String, text = a ++ "VALUES ($1, $2, $3, $4, 'pending', NOW())" ++ b) ∧
      (∃ a b : String, text = a ++ "RETURNING job_id;" ++ b) := by
  refine ⟨queryText, ?_, ?_, rfl, ?_, ?_⟩
  · rw [postJobs_queries_of_valid pool1 req1 w1 res1 hv1]; rfl
  · rw [postJobs_queries_of_valid pool2 req2 w2 res2 hv2]; rfl
  · exact ⟨"\n    INSERT INTO jobs (queue_name, job_type, payload, job_priority, job_status, job_created_at)\n    ",
      "\n    RETURNING job_id;\n  ", rfl⟩
  · exact ⟨"\n    INSERT INTO jobs (queue_name, job_type, payload, job_priority, job_status, job_created_at)\n    VALUES ($1, $2, $3, $4, 'pending', NOW())\n    ",
      "\n  ", rfl⟩

/-- C7 at two different valid requests over two different stores. -/
theorem insert_is_parameterized_witness :
    ∃ text : String,
      (postJobs modelStore welcomeJob (World.init []) Res.init).1.queries =
        [(text, [.string "emails", .string "welcome", .object [("to", .string "a@x.com")],
          .number 0])] ∧
      (postJobs (failingStore .null) lowPriorityJob (World.init ()) Res.init).1.queries =
        [(text, [.string "emails", .string "welcome", .object [], .number (-3)])] ∧
      text = queryText ∧
      (∃ a b : String, text = a ++ "VALUES ($1, $2, $3, $4, 'pending', NOW())" ++ b) ∧
      (∃ a b : String, text = a ++ "RETURNING job_id;" ++ b) :=
  insert_is_parameterized modelStore (failingStore .null) welcomeJob lowPriorityJob
    (World.init []) (World.init ()) Res.init Res.init rfl rfl

/-! ## What reaches the store -/

/-- C8 as stated fails: the handler issues an insert whose `queue_name` parameter is the
number `5`, which is not a string. -/
theorem numeric_queue_name_inserted :
    (postJobs modelStore numericQueueJob (World.init []) Res.init).1.queries =
        [(queryText, [.number 5, .string "welcome", .object [], .number 0])] ∧
      ¬ ∃ s : String, JSValue.number 5 = .string s ∧ s ≠ "" := by
  refine ⟨?_, by simp⟩
  rw [postJobs_queries_of_valid modelStore numericQueueJob (World.init []) Res.init rfl]
  rfl

/-- C8, amended: whenever the handler issues an insert, it is the one query
`queryText` with the parameters `values`, and its `queue_name`, `job_type` and `payload`
parameters are truthy: none of them is `undefined`, `null` or the empty string, so one that
is a string is non-empty, and the payload is present and non-null. -/
theorem inserted_fields_truthy {σ : Type} (pool : Pool σ) (req : Request) (w : World σ)
    (res : Res) (h : (postJobs pool req w res).1.queries ≠ w.queries) :
    ∃ q t p r : JSValue,
      (postJobs pool req w res).1.queries = w.queries ++ [(queryText, [q, t, p, r])] ∧
      q = getProp req.body "queue_name" ∧ t = getProp req.body "job_type" ∧
      p = getProp req.body "payload" ∧
      (q.truthy = true ∧ t.truthy = true ∧ p.truthy = true) ∧
      (q ≠ .undefined ∧ q ≠ .null ∧ q ≠ .string "") ∧
      (t ≠ .undefined ∧ t ≠ .null ∧ t ≠ .string "") ∧
      (p ≠ .undefined ∧ p ≠ .null ∧ p ≠ .string "") := by
  have hv : passesValidation req.body = true := by
    cases hv : passesValidation req.body
    · exact absurd (by rw [postJobs_world_of_invalid pool req w res hv]) h
    · rfl
  have ht := (passesValidation_iff req.body).1 hv
  exact ⟨_, _, _, _, postJobs_queries_of_valid pool req w res hv, rfl, rfl, rfl, ht,
    truthy_ne_falsy _ ht.1, truthy_ne_falsy _ ht.2.1, truthy_ne_falsy _ ht.2.2⟩

/-- The amended C8 at the request whose `queue_name` is the number `5`. -/
theorem inserted_fields_truthy_witness :
    ∃ q t p r : JSValue,
      (postJobs modelStore numericQueueJob (World.init []) Res.init).1.queries =
        [(queryText, [q, t, p, r])] ∧
      q = .number 5 ∧ t = .string "welcome" ∧ p = .object [] ∧
      (q.truthy = true ∧ t.truthy = true ∧ p.truthy = true) ∧
      (q ≠ .undefined ∧ q ≠ .null ∧ q ≠ .string "") ∧
      (t ≠ .undefined ∧ t ≠ .null ∧ t ≠ .string "") ∧
      (p ≠ .undefined ∧ p ≠ .null ∧ p ≠ .string "") :=
  inserted_fields_truthy modelStore numericQueueJob (World.init []) Res.init (by
    rw [postJobs_queries_of_valid modelStore numericQueueJob (World.init []) Res.init rfl]
    simp [World.init])

/-! ## Repeated submissions -/

/-- C9: over a store whose insert appends one row and returns an identifier no existing row
has, submitting the same valid request twice in sequence (the second call starting from the
world the first one left) gives two 201 responses with different `job_id`s and appends exactly
two rows to the table, one for each identifier: nothing is deduplicated. -/
theorem repeated_submission_creates_two_jobs {σ : Type} (pool : Pool σ)
    (table : σ → List JSObject) (req : Request) (w : World σ) (res1 res2 : Res)
    (hstore : InsertsFreshRow pool table) (hv : passesValidation req.body = true) :
    ∃ (i1 i2 : JSValue) (row1 row2 : JSObject),
      (postJobs pool req w res1).2 =
        { statusCode := 201, sent := res1.sent ++ [(201, createdBody i1)] } ∧
      (postJobs pool req (postJobs pool req w res1).1 res2).2 =
        { statusCode := 201, sent := res2.sent ++ [(201, createdBody i2)] } ∧
      i1 ≠ i2 ∧
      table (postJobs pool req (postJobs pool req w res1).1 res2).1.store =
        table w.store ++ [row1, row2] ∧
      getProp row1 "job_id" = i1 ∧ getProp row2 "job_id" = i2 := by
  obtain ⟨i1, first1, row1, rest1, s1, hq1, hid1, htab1, hrow1, _⟩ :=
    hstore (values req.body) w.store
  obtain ⟨i2, first2, row2, rest2, s2, hq2, hid2, htab2, hrow2, hfresh2⟩ :=
    hstore (values req.body) s1
  have h1 := postJobs_of_row pool req w res1 first1 rest1 s1 hv hq1
  have h2 := postJobs_of_row pool req (postJobs pool req w res1).1 res2 first2 rest2 s2 hv
    (by rw [h1]; exact hq2)
  refine ⟨i1, i2, row1, row2, ?_, ?_, ?_, ?_, hrow1, hrow2⟩
  · rw [h1, hid1]
  · rw [h2, hid2]
  · intro h
    exact hfresh2 row1 (by rw [htab1]; simp) (by rw [hrow1, h])
  · rw [h2]
    simp [htab2, htab1]

/-- C9 at scenario 1 of the specification, submitted twice to the empty model store: the
identifiers are `1` and `2` and the table holds the two rows. -/
theorem repeated_submission_creates_two_jobs_witness :
    ∃ (i1 i2 : JSValue) (row1 row2 : JSObject),
      (postJobs modelStore welcomeJob (World.init []) Res.init).2 =
        { statusCode := 201, sent := [(201, createdBody i1)] } ∧
      (postJobs modelStore welcomeJob (postJobs modelStore welcomeJob (World.init [])
          Res.init).1 Res.init).2 =
        { statusCode := 201, sent := [(201, createdBody i2)] } ∧
      i1 ≠ i2 ∧
      (postJobs modelStore welcomeJob (postJobs modelStore welcomeJob (World.init [])
          Res.init).1 Res.init).1.store = [row1, row2] ∧
      getProp row1 "job_id" = i1 ∧ getProp row2 "job_id" = i2 :=
  repeated_submission_creates_two_jobs modelStore (fun table => table) welcomeJob
    (World.init []) Res.init Res.init modelStore_insertsFreshRow rfl

/-! ## The response, in every case -/

/-- C10: whatever the request and however the store behaves, the handler sends exactly one
response, whose status `st` is 400, 201 or 500 and is the final status of the response
object; `st` is 201 exactly when `queue_name`, `job_type` and `payload` are all truthy and the
store's query resolves with at least one row; a query that resolves with no row gives 500 and
`{error: 'Internal Server Error'}`; and the body of a 201 is
`{message: 'Job created successfully', job_id: <job_id of the first row>}`. -/
theorem exactly_one_response {σ : Type} (pool : Pool σ) (req : Request) (w : World σ)
    (res : Res) :
    ∃ (st : Nat) (b : JSValue),
      (postJobs pool req w res).2 = { statusCode := st, sent := res.sent ++ [(st, b)] } ∧
      (st = 400 ∨ st = 201 ∨ st = 500) ∧
      (st = 201 ↔
        (getProp req.body "queue_name").truthy = true ∧
        (getProp req.body "job_type").truthy = true ∧
        (getProp req.body "payload").truthy = true ∧
        ∃ row rest, (pool.query queryText (values req.body) w.store).1 =
          .resolved { rows := row :: rest }) ∧
      (passesValidation req.body = true →
        (pool.query queryText (values req.body) w.store).1 = .resolved { rows := [] } →
        st = 500 ∧ b = .object [("error", .string "Internal Server Error")]) ∧
      (st = 201 →
        ∃ row rest, (pool.query queryText (values req.body) w.store).1 =
            .resolved { rows := row :: rest } ∧
          b = .object [("message", .string "Job created successfully"),
            ("job_id", getProp row "job_id")]) := by
  cases hv : passesValidation req.body
  · refine ⟨400, missingFieldsBody, congrArg Prod.snd (postJobs_of_invalid pool req w res hv), by simp, ?_, by simp,
      by simp⟩
    have hn := hv
    rw [← Bool.not_eq_true, passesValidation_iff] at hn
    constructor
    · intro h; simp at h
    · rintro ⟨a, b, c, _⟩; exact absurd ⟨a, b, c⟩ hn
  · have ht := (passesValidation_iff req.body).1 hv
    rcases hq : pool.query queryText (values req.body) w.store with ⟨out, s1⟩
    rcases out with ⟨rows⟩ | error
    · rcases rows with _ | ⟨row, rest⟩
      · exact ⟨500, internalErrorBody, congrArg Prod.snd (postJobs_of_no_rows pool req w res s1 hv hq), by simp,
          by simp, fun _ _ => ⟨rfl, rfl⟩, by simp⟩
      · refine ⟨201, createdBody (getProp row "job_id"),
          congrArg Prod.snd (postJobs_of_row pool req w res row rest s1 hv hq), by simp, ?_,
          by simp, ?_⟩
        · exact ⟨fun _ => ⟨ht.1, ht.2.1, ht.2.2, row, rest, rfl⟩, fun _ => rfl⟩
        · exact fun _ => ⟨row, rest, rfl, rfl⟩
    · exact ⟨500, internalErrorBody, congrArg Prod.snd (postJobs_of_rejected pool req w res error s1 hv hq),
        by simp, by simp, by simp, by simp⟩

/-- C10 at a valid request against a store that resolves with an empty row list: 500 and the
generic error body, sent once. -/
theorem exactly_one_response_witness :
    (postJobs (constStore []) welcomeJob (World.init ()) Res.init).2 =
      { statusCode := 500, sent := [(500, internalErrorBody)] } := by
  obtain ⟨st, b, hres, _, _, hempty, _⟩ :=
    exactly_one_response (constStore []) welcomeJob (World.init ()) Res.init
  obtain ⟨hst, hb⟩ := hempty rfl rfl
  rw [hres, hst, hb]
  rfl

end JobHandler
